import Mathlib

/-!
Shallow embedding of the browser form-filling logic of src/toolCalling3.py.

The development models find_element_with_multiple_strategies
(lines 125-175) and the completed fill pass of fill_job_application_form
(lines 518-627).  External browser effects (Selenium lookups, scrolling,
keystrokes, option selection, clicks) are modelled by an environment of
total functions whose error results stand for raised exceptions carrying
their message; driver setup, screenshots, sleeps and the outer
JSON-validation returns of the tool are thin I/O around the pass and stay
outside the embedding.  Python floats are modelled as exact rationals with
the two-decimal rounding performed by round(x, 2) made explicit.
-/

namespace ToolCalling3

/-- Selenium locator-type constants; in the Python source the By members
are plain strings. -/
def By.ID : String := "id"

def By.NAME : String := "name"

def By.XPATH : String := "xpath"

def By.CSS_SELECTOR : String := "css selector"

def By.CLASS_NAME : String := "class name"

/-- The space character. -/
def spaceChar : Char := Char.ofNat 32

/-- The underscore character. -/
def underscoreChar : Char := Char.ofNat 95

/-- The hyphen character. -/
def hyphenChar : Char := Char.ofNat 45

/-- Python str.lower as a character map; the field names of this code are
ASCII, where the two functions agree. -/
def strToLower (s : String) : String := ⟨s.data.map Char.toLower⟩

/-- Python str.replace for a single-character pattern, the only form the
source uses (spaces turned into underscores or hyphens). -/
def replaceChar (s : String) (c r : Char) : String :=
  ⟨s.data.map fun x => if x = c then r else x⟩

/-- Prefix test on character lists. -/
def listPrefix : List Char → List Char → Bool
  | [], _ => true
  | _ :: _, [] => false
  | a :: as, b :: bs => a == b && listPrefix as bs

/-- Substring test on character lists; the empty pattern occurs in every
list. -/
def listSubstr : List Char → List Char → Bool
  | pat, [] => listPrefix pat []
  | pat, c :: rest => listPrefix pat (c :: rest) || listSubstr pat rest

/-- Python substring test pat in s. -/
def strContains (s pat : String) : Bool := listSubstr pat.data s.data

/-- Splitting a character list on spaces, keeping empty pieces. -/
def splitSpacesAux (cur : List Char) : List Char → List (List Char)
  | [] => [cur.reverse]
  | c :: rest =>
      if c = spaceChar then cur.reverse :: splitSpacesAux [] rest
      else splitSpacesAux (c :: cur) rest

/-- Python str.split with no argument: split on spaces and drop empty
pieces (the field-mapping keys of the source contain only single
spaces). -/
def pySplit (s : String) : List String :=
  ((splitSpacesAux [] s.data).filter fun w => w ≠ []).map fun w => ⟨w⟩

/-- The FormField pydantic model of src/toolCalling3.py lines 26-34;
placeholder_text and options carry declared defaults, the other five
fields are mandatory. -/
structure FormField where
  field_name : String
  field_type : String
  locator_type : String
  locator_value : String
  is_required : Bool
  placeholder_text : String := ""
  options : List String := []
deriving DecidableEq

/-- Keyword arguments of a FormField(**d) construction: every pydantic
field may be present or absent in the incoming dictionary. -/
structure FormFieldArgs where
  field_name : Option String := none
  field_type : Option String := none
  locator_type : Option String := none
  locator_value : Option String := none
  is_required : Option Bool := none
  placeholder_text : Option String := none
  options : Option (List String) := none

/-- Pydantic validation of FormField(**d): the five fields declared
without a default must be present, otherwise construction raises a
ValidationError (modelled as none); the two defaulted fields fall back to
their defaults. -/
def FormField.validate (d : FormFieldArgs) : Option FormField :=
  match d.field_name, d.field_type, d.locator_type, d.locator_value, d.is_required with
  | some fn, some ft, some lt, some lv, some req =>
      some { field_name := fn, field_type := ft, locator_type := lt,
             locator_value := lv, is_required := req,
             placeholder_text := d.placeholder_text.getD "",
             options := d.options.getD [] }
  | _, _, _, _, _ => none

/-- Decidable equality for exception-carrying results, used to evaluate
the embedding on concrete inputs. -/
def exceptDecEq {ε α : Type} [DecidableEq ε] [DecidableEq α] : DecidableEq (Except ε α)
  | .ok a, .ok b => if h : a = b then isTrue (by rw [h]) else isFalse (by simp [h])
  | .ok _, .error _ => isFalse (by simp)
  | .error _, .ok _ => isFalse (by simp)
  | .error a, .error b => if h : a = b then isTrue (by rw [h]) else isFalse (by simp [h])

instance {ε α : Type} [DecidableEq ε] [DecidableEq α] : DecidableEq (Except ε α) :=
  exceptDecEq

/-- One Selenium element lookup: ok e is a found element handle, error msg
a raised exception (timeout or other) carrying its message. -/
abbrev Page := String → String → Except String Nat

/-- Whether a lookup succeeded. -/
def exceptIsOk : Except String Nat → Bool
  | .ok _ => true
  | .error _ => false

/-- The locator-type normalisation at the top of the strategy loop
(lines 154-164). -/
def normalizeLocatorType (t : String) : String :=
  if t = "css_selector" then By.CSS_SELECTOR
  else if t = "xpath" then By.XPATH
  else if t = "id" then By.ID
  else if t = "name" then By.NAME
  else if t = "class_name" then By.CLASS_NAME
  else t

/-- The initial candidate list of find_element_with_multiple_strategies
(lines 127-133): the declared locator, then by-name and by-id with spaces
turned into underscores and hyphens. -/
def strategiesBase (field : FormField) : List (String × String) :=
  [(field.locator_type, field.locator_value),
   (By.NAME, replaceChar (strToLower field.field_name) spaceChar underscoreChar),
   (By.NAME, replaceChar (strToLower field.field_name) spaceChar hyphenChar),
   (By.ID, replaceChar (strToLower field.field_name) spaceChar underscoreChar),
   (By.ID, replaceChar (strToLower field.field_name) spaceChar hyphenChar)]

/-- The full candidate list (lines 127-150): the base list extended by the
conditional name, email or phone XPath probes; the branches form an
if/elif/elif chain, so only the first matching category contributes. -/
def strategies (field : FormField) : List (String × String) :=
  if strContains (strToLower field.field_name) "name" then
    strategiesBase field ++
      [(By.XPATH, "//input[contains(@placeholder, \x27name\x27)]"),
       (By.XPATH, "//input[contains(@aria-label, \x27name\x27)]")]
  else if strContains (strToLower field.field_name) "email" then
    strategiesBase field ++
      [(By.XPATH, "//input[@type=\x27email\x27]"),
       (By.XPATH, "//input[contains(@placeholder, \x27email\x27)]")]
  else if strContains (strToLower field.field_name) "phone" then
    strategiesBase field ++
      [(By.XPATH, "//input[@type=\x27tel\x27]"),
       (By.XPATH, "//input[contains(@placeholder, \x27phone\x27)]")]
  else strategiesBase field

/-- The strategy loop (lines 152-175): each candidate is normalised and
queried; a raised exception is caught and the loop continues; None is
returned once the list is exhausted. -/
def tryStrategies (page : Page) : List (String × String) → Option Nat
  | [] => none
  | (t, v) :: rest =>
      match page (normalizeLocatorType t) v with
      | .ok e => some e
      | .error _ => tryStrategies page rest

/-- find_element_with_multiple_strategies of src/toolCalling3.py. -/
def find_element_with_multiple_strategies (page : Page) (field : FormField) : Option Nat :=
  tryStrategies page (strategies field)

/-- External browser effects available to one field of the fill loop; an
error result models a raised exception with its message. -/
structure Env where
  page : Page
  scroll : Nat → Except String Unit
  typeText : Nat → String → Except String Unit
  selectOption : Nat → String → Except String Unit
  clickToggle : Nat → Except String Unit

/-- Python truthiness of the value_to_fill variable: None and the empty
string are falsy. -/
def isTruthy : Option String → Bool
  | none => false
  | some s => s ≠ ""

/-- First mapping entry whose key is a substring of the lowercased field
name (lines 540-544). -/
def firstSubstrMatch : List (String × String) → String → Option String
  | [], _ => none
  | (k, v) :: rest, fieldName =>
      if strContains fieldName k then some v else firstSubstrMatch rest fieldName

/-- First mapping entry one of whose key words is a substring of the
lowercased field name (lines 546-551). -/
def firstWordMatch : List (String × String) → String → Option String
  | [], _ => none
  | (k, v) :: rest, fieldName =>
      if (pySplit k).any (fun w => strContains fieldName w) then some v
      else firstWordMatch rest fieldName

/-- The value_to_fill computation (lines 540-558): the substring match
first, the word-level match only when the first result is falsy - keeping
the earlier value when the second loop matches nothing - and the final
truthiness check deciding between filling and the no-matching-data
failure. -/
def resolveProfileValue (mapping : List (String × String)) (fieldName : String) : Option String :=
  let v1 := firstSubstrMatch mapping fieldName
  let v2 :=
    if isTruthy v1 then v1
    else
      match firstWordMatch mapping fieldName with
      | some v => some v
      | none => v1
  if isTruthy v2 then v2 else none

/-- Per-field outcome: exactly one of the filled_fields entry or the
failed_fields entry appended by the source loop. -/
inductive FieldOutcome where
  | filled (name : String)
  | failed (name : String) (error : String)
deriving DecidableEq

/-- The type-dispatched interaction (lines 560-584); a field type outside
the handled set falls through without any interaction, since the if/elif
chain has no else branch. -/
def fillByType (env : Env) (elem : Nat) (fieldType : String) (value : String) : Except String Unit :=
  if fieldType = "text" ∨ fieldType = "email" ∨ fieldType = "tel" ∨ fieldType = "url" ∨ fieldType = "password" then
    env.typeText elem value
  else if fieldType = "textarea" then env.typeText elem value
  else if fieldType = "select" then env.selectOption elem value
  else if fieldType = "checkbox" ∨ fieldType = "radio" then env.clickToggle elem
  else Except.ok ()

/-- Stage of the loop body after the interaction: a raised exception is
recorded with its message, otherwise the field counts as filled. -/
def afterFill (field : FormField) : Except String Unit → FieldOutcome
  | .error msg => .failed field.field_name msg
  | .ok _ => .filled field.field_name

/-- Stage of the loop body after profile-value resolution (lines
553-558): a missing value is recorded with the fixed reason string,
otherwise the interaction runs. -/
def afterValue (env : Env) (field : FormField) (elem : Nat) : Option String → FieldOutcome
  | none => .failed field.field_name "No matching profile data found"
  | some v => afterFill field (fillByType env elem field.field_type v)

/-- Stage of the loop body after the scroll-into-view script (line 536): a
raised exception is recorded with its message, otherwise the profile value
is resolved. -/
def afterScroll (env : Env) (mapping : List (String × String)) (field : FormField) (elem : Nat) :
    Except String Unit → FieldOutcome
  | .error msg => .failed field.field_name msg
  | .ok _ => afterValue env field elem (resolveProfileValue mapping (strToLower field.field_name))

/-- One iteration of the fill loop (lines 518-597) for an already
constructed FormField: element lookup, scroll into view, profile-value
resolution and the type-specific interaction; every exception raised
inside the iteration is caught and recorded as a failure entry with its
message, and a missed lookup is recorded with the fixed reason string.
The FormField construction of line 526, which also sits inside the
per-field try, is restored by processRawField below. -/
def processField (env : Env) (mapping : List (String × String)) (field : FormField) : FieldOutcome :=
  match find_element_with_multiple_strategies env.page field with
  | none => .failed field.field_name "Element not found with any strategy"
  | some elem => afterScroll env mapping field elem (env.scroll elem)

/-- Names of the successfully filled fields, in pass order. -/
def filledFields (outcomes : List FieldOutcome) : List String :=
  outcomes.filterMap fun o =>
    match o with
    | .filled n => some n
    | .failed _ _ => none

/-- The failure entries (field name and reason), in pass order. -/
def failedFields (outcomes : List FieldOutcome) : List (String × String) :=
  outcomes.filterMap fun o =>
    match o with
    | .filled _ => none
    | .failed n e => some (n, e)

/-- Nearest integer with ties to even, the rounding of Python round: the
fractional part is compared with one half. -/
def roundHalfEvenInt (q : ℚ) : ℤ :=
  if q - (⌊q⌋ : ℚ) < 1 / 2 then ⌊q⌋
  else if (1 : ℚ) / 2 < q - (⌊q⌋ : ℚ) then ⌊q⌋ + 1
  else if ⌊q⌋ % 2 = 0 then ⌊q⌋ else ⌊q⌋ + 1

/-- Python round(x, 2): two-decimal rounding, modelled exactly on
rationals. -/
def round2 (q : ℚ) : ℚ := ((roundHalfEvenInt (q * 100) : ℤ) : ℚ) / 100

/-- The FormFillingResult summary of lines 602-627; the screenshot path is
file I/O outside the embedding. -/
structure FormFillingResult where
  filling_status : String
  filled_fields : List String
  failed_fields : List (String × String)
  total_fields : Nat
  success_rate : ℚ

/-- The completed fill pass of fill_job_application_form (lines 518-627):
the loop over all fields, the filled and failed lists, the success rate
with its guard for an empty field list and the two-decimal rounding of the
return statement, and the status classification of lines 606-612. -/
def fill_job_application_form (env : Env) (mapping : List (String × String))
    (all_fields : List FormField) : FormFillingResult :=
  { filling_status :=
      if (filledFields (all_fields.map (processField env mapping))).length = all_fields.length
      then "success"
      else if (filledFields (all_fields.map (processField env mapping))).length > 0
      then "partial"
      else "error"
    filled_fields := filledFields (all_fields.map (processField env mapping))
    failed_fields := failedFields (all_fields.map (processField env mapping))
    total_fields := all_fields.length
    success_rate :=
      round2 (if all_fields.length > 0 then
        ((filledFields (all_fields.map (processField env mapping))).length : ℚ)
          / (all_fields.length : ℚ) * 100
      else 0) }

/-- A page on which every lookup raises a timeout. -/
def pageNone : Page := fun _ _ => Except.error "TimeoutException"

/-- A page holding exactly one element, addressed by id email_box. -/
def pageEmailBox : Page := fun t v =>
  if t = "id" ∧ v = "email_box" then Except.ok 1 else Except.error "TimeoutException"

/-- A page holding exactly one element, addressed by id fav_color. -/
def pageFavColor : Page := fun t v =>
  if t = "id" ∧ v = "fav_color" then Except.ok 1 else Except.error "TimeoutException"

/-- A page whose only findable element is an input of type email, reached
by the type=email XPath probe alone. -/
def pageTypeEmailOnly : Page := fun t v =>
  if t = By.XPATH ∧ v = "//input[@type=\x27email\x27]" then Except.ok 7
  else Except.error "TimeoutException"

/-- An environment whose non-lookup effects always succeed. -/
def envOk (page : Page) : Env :=
  { page := page
    scroll := fun _ => Except.ok ()
    typeText := fun _ _ => Except.ok ()
    selectOption := fun _ _ => Except.ok ()
    clickToggle := fun _ => Except.ok () }

/-- An environment whose interactions all raise, used to observe which
fields ever reach an interaction. -/
def envRaise (page : Page) : Env :=
  { page := page
    scroll := fun _ => Except.ok ()
    typeText := fun _ _ => Except.error "interaction raised"
    selectOption := fun _ _ => Except.error "interaction raised"
    clickToggle := fun _ => Except.error "interaction raised" }

/-- A text field named Email located by id email_box. -/
def fieldEmail : FormField :=
  { field_name := "Email", field_type := "text", locator_type := "id",
    locator_value := "email_box", is_required := true }

/-- A field named Email whose declared type file is outside the handled
set of the interaction dispatch. -/
def fieldEmailFile : FormField :=
  { field_name := "Email", field_type := "file", locator_type := "id",
    locator_value := "email_box", is_required := true }

/-- A text field whose locators match nothing on the concrete pages. -/
def fieldAaa : FormField :=
  { field_name := "Aaa", field_type := "text", locator_type := "id",
    locator_value := "aaa_box", is_required := false }

/-- A second text field whose locators match nothing on the concrete
pages. -/
def fieldBbb : FormField :=
  { field_name := "Bbb", field_type := "text", locator_type := "id",
    locator_value := "bbb_box", is_required := false }

/-- The Favorite Color scenario field of the spec. -/
def fieldFavColor : FormField :=
  { field_name := "Favorite Color", field_type := "text", locator_type := "id",
    locator_value := "fav_color", is_required := false }

/-- A field whose name contains both email and name, so the if/elif chain
adds the name probes and never the email probes. -/
def fieldEmailName : FormField :=
  { field_name := "Email Name", field_type := "email", locator_type := "id",
    locator_value := "email_name", is_required := true }

/-- The Email Address scenario field of the spec. -/
def fieldEmailAddress : FormField :=
  { field_name := "Email Address", field_type := "email", locator_type := "id",
    locator_value := "email_address", is_required := true }

/-- A one-entry profile mapping for fields whose name contains email. -/
def mapEmail : List (String × String) := [("email", "john.doe@email.com")]

/-- A profile mapping none of whose keys or key words occurs in the name
favorite color. -/
def mapNoColor : List (String × String) :=
  [("email", "john.doe@email.com"), ("first name", "John")]

/-- Keyword arguments leaving the declared locator out. -/
def argsNoLocator : FormFieldArgs :=
  { field_name := some "Favorite Color", field_type := some "text",
    is_required := some false }

/-- A raw field dictionary as iterated by the fill loop: the field_name
and field_type keys are read before the per-field try (lines 519-520), so
a pass that completes with per-field entries has them on every field; the
remaining keys may be absent and are checked only by the FormField
construction inside the try (line 526). -/
structure RawField where
  field_name : String
  field_type : String
  locator_type : Option String := none
  locator_value : Option String := none
  is_required : Option Bool := none
  placeholder_text : Option String := none
  options : Option (List String) := none

/-- The keyword arguments the FormField construction receives from a raw
field dictionary. -/
def RawField.toArgs (d : RawField) : FormFieldArgs :=
  { field_name := some d.field_name, field_type := some d.field_type,
    locator_type := d.locator_type, locator_value := d.locator_value,
    is_required := d.is_required, placeholder_text := d.placeholder_text,
    options := d.options }

/-- One iteration of the fill loop over a raw field dictionary: the
FormField construction of line 526 runs inside the per-field try, so a
pydantic ValidationError is caught by the handler of lines 592-597 and
recorded in failed_fields with its message - the text of that message is
produced by the pydantic library and is modelled by the external vmsg
oracle; a validated field proceeds through processField. -/
def processRawField (env : Env) (vmsg : FormFieldArgs → String)
    (mapping : List (String × String)) (d : RawField) : FieldOutcome :=
  match FormField.validate d.toArgs with
  | none => .failed d.field_name (vmsg d.toArgs)
  | some field => processField env mapping field

/-- The completed fill pass over raw field dictionaries: the summary of
fill_job_application_form with the per-field construction step of
line 526 restored. -/
def fill_job_application_form_raw (env : Env) (vmsg : FormFieldArgs → String)
    (mapping : List (String × String)) (all_fields : List RawField) : FormFillingResult :=
  { filling_status :=
      if (filledFields (all_fields.map (processRawField env vmsg mapping))).length =
          all_fields.length
      then "success"
      else if (filledFields (all_fields.map (processRawField env vmsg mapping))).length > 0
      then "partial"
      else "error"
    filled_fields := filledFields (all_fields.map (processRawField env vmsg mapping))
    failed_fields := failedFields (all_fields.map (processRawField env vmsg mapping))
    total_fields := all_fields.length
    success_rate :=
      round2 (if all_fields.length > 0 then
        ((filledFields (all_fields.map (processRawField env vmsg mapping))).length : ℚ)
          / (all_fields.length : ℚ) * 100
      else 0) }

/-- A raw field whose locator keys are absent, so the pydantic
construction inside the per-field try raises. -/
def rawBroken : RawField :=
  { field_name := "Broken", field_type := "text" }

/-- The raw dictionary of the Favorite Color scenario field. -/
def rawFav : RawField :=
  { field_name := "Favorite Color", field_type := "text",
    locator_type := some "id", locator_value := some "fav_color",
    is_required := some false }

/-- A raw text field located by id street_box. -/
def rawStreet : RawField :=
  { field_name := "Street", field_type := "text",
    locator_type := some "id", locator_value := some "street_box",
    is_required := some false }

/-- The validated form of rawStreet. -/
def fieldStreet : FormField :=
  { field_name := "Street", field_type := "text", locator_type := "id",
    locator_value := "street_box", is_required := false }

/-- A page holding two elements: fav_color as element 1 and street_box as
element 2. -/
def pageTwoBoxes : Page := fun t v =>
  if t = "id" ∧ v = "fav_color" then Except.ok 1
  else if t = "id" ∧ v = "street_box" then Except.ok 2
  else Except.error "TimeoutException"

/-- An environment over pageTwoBoxes whose scroll script raises on
element 2 only and whose type-specific interactions never raise. -/
def envScrollFault : Env :=
  { page := pageTwoBoxes
    scroll := fun e => if e = 2 then Except.error "scroll raised" else Except.ok ()
    typeText := fun _ _ => Except.ok ()
    selectOption := fun _ _ => Except.ok ()
    clickToggle := fun _ => Except.ok () }

/-- A concrete stand-in for the text pydantic gives a ValidationError. -/
def vmsgPydantic : FormFieldArgs → String := fun _ => "1 validation error for FormField"

/-- Unfolding of the reported status. -/
theorem fill_status_def (env : Env) (mapping : List (String × String)) (fields : List FormField) :
    (fill_job_application_form env mapping fields).filling_status =
      if (filledFields (fields.map (processField env mapping))).length = fields.length
      then "success"
      else if (filledFields (fields.map (processField env mapping))).length > 0
      then "partial"
      else "error" := rfl

/-- Unfolding of the reported filled list. -/
theorem fill_filled_def (env : Env) (mapping : List (String × String)) (fields : List FormField) :
    (fill_job_application_form env mapping fields).filled_fields =
      filledFields (fields.map (processField env mapping)) := rfl

/-- Unfolding of the reported failure list. -/
theorem fill_failed_def (env : Env) (mapping : List (String × String)) (fields : List FormField) :
    (fill_job_application_form env mapping fields).failed_fields =
      failedFields (fields.map (processField env mapping)) := rfl

/-- Unfolding of the reported total. -/
theorem fill_total_def (env : Env) (mapping : List (String × String)) (fields : List FormField) :
    (fill_job_application_form env mapping fields).total_fields = fields.length := rfl

/-- Unfolding of the reported success rate. -/
theorem fill_rate_def (env : Env) (mapping : List (String × String)) (fields : List FormField) :
    (fill_job_application_form env mapping fields).success_rate =
      round2 (if fields.length > 0 then
        ((filledFields (fields.map (processField env mapping))).length : ℚ)
          / (fields.length : ℚ) * 100
      else 0) := rfl

/-- Rounding zero to two decimal places gives zero. -/
theorem round2_zero : round2 0 = 0 := by
  norm_num [round2, roundHalfEvenInt]

/-- A successful head candidate ends the loop with its element. -/
theorem tryStrategies_cons_ok (page : Page) (t v : String) (rest : List (String × String))
    (e : Nat) (h : page (normalizeLocatorType t) v = Except.ok e) :
    tryStrategies page ((t, v) :: rest) = some e := by
  simp [tryStrategies, h]

/-- A failing prefix of candidates is skipped by the loop. -/
theorem tryStrategies_append_of_fail (page : Page) (l1 l2 : List (String × String))
    (h : ∀ s ∈ l1, exceptIsOk (page (normalizeLocatorType s.1) s.2) = false) :
    tryStrategies page (l1 ++ l2) = tryStrategies page l2 := by
  induction l1 with
  | nil => rfl
  | cons s rest ih =>
      obtain ⟨t, v⟩ := s
      have h1 := h (t, v) (List.mem_cons_self _ _)
      cases hp : page (normalizeLocatorType t) v with
      | ok e => rw [hp] at h1; simp [exceptIsOk] at h1
      | error msg =>
          rw [List.cons_append]
          simp only [tryStrategies, hp]
          exact ih fun s hs => h s (List.mem_cons_of_mem _ hs)

/-- When every candidate fails the loop returns None. -/
theorem tryStrategies_none_of_fail (page : Page) (l : List (String × String))
    (h : ∀ s ∈ l, exceptIsOk (page (normalizeLocatorType s.1) s.2) = false) :
    tryStrategies page l = none := by
  induction l with
  | nil => rfl
  | cons s rest ih =>
      obtain ⟨t, v⟩ := s
      have h1 := h (t, v) (List.mem_cons_self _ _)
      cases hp : page (normalizeLocatorType t) v with
      | ok e => rw [hp] at h1; simp [exceptIsOk] at h1
      | error msg =>
          simp only [tryStrategies, hp]
          exact ih fun s hs => h s (List.mem_cons_of_mem _ hs)

/-- The first five candidates are always the base list. -/
theorem strategies_take_five (field : FormField) :
    (strategies field).take 5 = strategiesBase field := by
  unfold strategies
  split
  · rfl
  split
  · rfl
  split
  · rfl
  · rfl

/-- The first two candidates are the declared locator and the by-name
underscore variant. -/
theorem strategies_take_two (field : FormField) :
    (strategies field).take 2 =
      [(field.locator_type, field.locator_value),
       (By.NAME, replaceChar (strToLower field.field_name) spaceChar underscoreChar)] := by
  unfold strategies strategiesBase
  split
  · rfl
  split
  · rfl
  split
  · rfl
  · rfl

/-- The candidate list always starts with the declared locator. -/
theorem strategies_cons (field : FormField) :
    ∃ rest, strategies field = (field.locator_type, field.locator_value) :: rest := by
  unfold strategies strategiesBase
  split
  · exact ⟨_, rfl⟩
  split
  · exact ⟨_, rfl⟩
  split
  · exact ⟨_, rfl⟩
  · exact ⟨_, rfl⟩

/-- A missed lookup is recorded with the fixed reason string. -/
theorem processField_not_found (env : Env) (mapping : List (String × String)) (field : FormField)
    (h : find_element_with_multiple_strategies env.page field = none) :
    processField env mapping field =
      FieldOutcome.failed field.field_name "Element not found with any strategy" := by
  unfold processField
  rw [h]

/-- Membership in the failure list of a pass coincides with a failing
outcome. -/
theorem mem_failedFields (outcomes : List FieldOutcome) (n err : String) :
    (n, err) ∈ failedFields outcomes ↔ FieldOutcome.failed n err ∈ outcomes := by
  unfold failedFields
  rw [List.mem_filterMap]
  constructor
  · rintro ⟨o, ho, he⟩
    cases o with
    | filled m => simp at he
    | failed m e =>
        simp only [Option.some.injEq, Prod.mk.injEq] at he
        rw [he.1, he.2] at ho
        exact ho
  · intro ho
    exact ⟨.failed n err, ho, rfl⟩

/-- A failure entry of a pass comes from some field of the pass. -/
theorem fill_failed_mem (env : Env) (mapping : List (String × String))
    (fields : List FormField) (n err : String) :
    (n, err) ∈ (fill_job_application_form env mapping fields).failed_fields ↔
      ∃ field, field ∈ fields ∧ processField env mapping field = FieldOutcome.failed n err := by
  rw [fill_failed_def, mem_failedFields, List.mem_map]

/-- Unfolding of the failure list reported by the raw pass. -/
theorem fill_raw_failed_def (env : Env) (vmsg : FormFieldArgs → String)
    (mapping : List (String × String)) (fields : List RawField) :
    (fill_job_application_form_raw env vmsg mapping fields).failed_fields =
      failedFields (fields.map (processRawField env vmsg mapping)) := rfl

/-- A failure entry of a raw pass comes from some raw field of the
pass. -/
theorem fill_raw_failed_mem (env : Env) (vmsg : FormFieldArgs → String)
    (mapping : List (String × String)) (fields : List RawField) (n err : String) :
    (n, err) ∈ (fill_job_application_form_raw env vmsg mapping fields).failed_fields ↔
      ∃ d, d ∈ fields ∧
        processRawField env vmsg mapping d = FieldOutcome.failed n err := by
  rw [fill_raw_failed_def, mem_failedFields, List.mem_map]

/-- On a raw field whose construction validates, the raw iteration is the
typed iteration of the constructed FormField. -/
theorem processRawField_validated (env : Env) (vmsg : FormFieldArgs → String)
    (mapping : List (String × String)) (d : RawField) (field : FormField)
    (h : FormField.validate d.toArgs = some field) :
    processRawField env vmsg mapping d = processField env mapping field := by
  unfold processRawField
  rw [h]

/-- Every outcome lands in exactly one of the two lists, so their lengths
sum to the number of outcomes. -/
theorem filledFields_length_add (outcomes : List FieldOutcome) :
    (filledFields outcomes).length + (failedFields outcomes).length = outcomes.length := by
  induction outcomes with
  | nil => rfl
  | cons o rest ih =>
      cases o with
      | filled n =>
          simp only [filledFields, failedFields, List.filterMap_cons, List.length_cons] at ih ⊢
          omega
      | failed n e =>
          simp only [filledFields, failedFields, List.filterMap_cons, List.length_cons] at ih ⊢
          omega

/-- Case analysis of a recorded failure: the entry carries the field name
and one of the three reason shapes of the loop body. -/
theorem processField_failed_cases (env : Env) (mapping : List (String × String))
    (field : FormField) (n err : String)
    (h : processField env mapping field = FieldOutcome.failed n err) :
    n = field.field_name ∧
      ((find_element_with_multiple_strategies env.page field = none ∧
          err = "Element not found with any strategy") ∨
        err = "No matching profile data found" ∨
        (∃ elem, find_element_with_multiple_strategies env.page field = some elem ∧
          (env.scroll elem = Except.error err ∨
            ∃ v, fillByType env elem field.field_type v = Except.error err))) := by
  unfold processField at h
  cases hfind : find_element_with_multiple_strategies env.page field with
  | none =>
      rw [hfind] at h
      simp only at h
      injection h with h1 h2
      exact ⟨h1.symm, Or.inl ⟨rfl, h2.symm⟩⟩
  | some elem =>
      rw [hfind] at h
      simp only at h
      unfold afterScroll at h
      cases hscroll : env.scroll elem with
      | error msg =>
          rw [hscroll] at h
          simp only at h
          injection h with h1 h2
          refine ⟨h1.symm, Or.inr (Or.inr ⟨elem, rfl, Or.inl ?_⟩)⟩
          rw [hscroll, h2]
      | ok u =>
          rw [hscroll] at h
          simp only at h
          unfold afterValue at h
          cases hval : resolveProfileValue mapping (strToLower field.field_name) with
          | none =>
              rw [hval] at h
              simp only at h
              injection h with h1 h2
              exact ⟨h1.symm, Or.inr (Or.inl h2.symm)⟩
          | some v =>
              rw [hval] at h
              simp only at h
              unfold afterFill at h
              cases hfill : fillByType env elem field.field_type v with
              | error msg =>
                  rw [hfill] at h
                  simp only at h
                  injection h with h1 h2
                  refine ⟨h1.symm, Or.inr (Or.inr ⟨elem, rfl, Or.inr ⟨v, ?_⟩⟩)⟩
                  rw [hfill, h2]
              | ok u2 =>
                  rw [hfill] at h
                  simp only at h
                  exact absurd h (by simp)

/-- C4: element resolution tries its candidates in the fixed priority
order - the declared locator, by-name underscore, by-name hyphen, by-id
underscore, by-id hyphen, then the conditional name, email or phone
probes - returning the element of the first candidate that matches and
attempting no later candidate; in particular a resolving declared locator
is returned without any fallback. -/
theorem c4_priority_order (page : Page) (field : FormField) :
    ((strategies field).take 5 =
      [(field.locator_type, field.locator_value),
       (By.NAME, replaceChar (strToLower field.field_name) spaceChar underscoreChar),
       (By.NAME, replaceChar (strToLower field.field_name) spaceChar hyphenChar),
       (By.ID, replaceChar (strToLower field.field_name) spaceChar underscoreChar),
       (By.ID, replaceChar (strToLower field.field_name) spaceChar hyphenChar)]) ∧
    (∀ l1 s l2, strategies field = l1 ++ s :: l2 →
      (∀ s1 ∈ l1, exceptIsOk (page (normalizeLocatorType s1.1) s1.2) = false) →
      ∀ e, page (normalizeLocatorType s.1) s.2 = Except.ok e →
      find_element_with_multiple_strategies page field = some e) ∧
    (∀ e, page (normalizeLocatorType field.locator_type) field.locator_value = Except.ok e →
      find_element_with_multiple_strategies page field = some e) := by
  refine ⟨strategies_take_five field, ?_, ?_⟩
  · intro l1 s l2 hsplit hfail e he
    unfold find_element_with_multiple_strategies
    rw [hsplit, tryStrategies_append_of_fail page l1 (s :: l2) hfail]
    obtain ⟨t, v⟩ := s
    exact tryStrategies_cons_ok page t v l2 e he
  · intro e he
    obtain ⟨rest, hr⟩ := strategies_cons field
    unfold find_element_with_multiple_strategies
    rw [hr]
    exact tryStrategies_cons_ok page field.locator_type field.locator_value rest e he

/-- C4 witness: on a concrete page the declared locator resolves and its
element is returned. -/
theorem c4_priority_order_witness :
    pageEmailBox (normalizeLocatorType fieldEmail.locator_type) fieldEmail.locator_value =
      Except.ok 1 ∧
    find_element_with_multiple_strategies pageEmailBox fieldEmail = some 1 :=
  ⟨by decide, (c4_priority_order pageEmailBox fieldEmail).2.2 1 (by decide)⟩

/-- C5: when every candidate fails, resolution returns the explicit
not-found result None and the fill loop records the field as a failure
with the fixed reason string; each raised lookup exception is caught
inside the loop, so no fault crosses the resolution boundary. -/
theorem c5_not_found (env : Env) (mapping : List (String × String)) (field : FormField)
    (h : ∀ s ∈ strategies field, exceptIsOk (env.page (normalizeLocatorType s.1) s.2) = false) :
    find_element_with_multiple_strategies env.page field = none ∧
    processField env mapping field =
      FieldOutcome.failed field.field_name "Element not found with any strategy" := by
  have hn : find_element_with_multiple_strategies env.page field = none :=
    tryStrategies_none_of_fail env.page (strategies field) h
  exact ⟨hn, processField_not_found env mapping field hn⟩

/-- C5 witness: the not-found law evaluated on a page where every lookup
raises a timeout. -/
theorem c5_not_found_witness :
    find_element_with_multiple_strategies (envOk pageNone).page fieldFavColor = none ∧
    processField (envOk pageNone) mapEmail fieldFavColor =
      FieldOutcome.failed "Favorite Color" "Element not found with any strategy" :=
  c5_not_found (envOk pageNone) mapEmail fieldFavColor (by decide)

/-- C8 counterexample: FormField construction without a declared locator
is rejected by validation, and for a constructed field the candidate list
starts with the declared locator, not with the by-name underscore
variant. -/
theorem c8_counterexample :
    FormField.validate argsNoLocator = none ∧
    (strategies fieldFavColor).head? = some ("id", "fav_color") := by
  exact ⟨by decide, by decide⟩

/-- C8 (amended): the declared locator of a FormField is mandatory -
construction without locator_type or locator_value is rejected by pydantic
validation - and element resolution always places the declared locator
first, with the by-name underscore candidate second. -/
theorem c8_locator_mandatory :
    (∀ d : FormFieldArgs, d.locator_type = none ∨ d.locator_value = none →
      FormField.validate d = none) ∧
    (∀ field : FormField, (strategies field).take 2 =
      [(field.locator_type, field.locator_value),
       (By.NAME, replaceChar (strToLower field.field_name) spaceChar underscoreChar)]) := by
  constructor
  · intro d h
    unfold FormField.validate
    rcases h with h | h
    · rw [h]
      cases d.field_name <;> cases d.field_type <;> cases d.locator_value <;>
        cases d.is_required <;> rfl
    · rw [h]
      cases d.field_name <;> cases d.field_type <;> cases d.locator_type <;>
        cases d.is_required <;> rfl
  · exact strategies_take_two

/-- C8 witness: the no-locator arguments are rejected and the concrete
candidate list starts with the declared locator then the by-name
underscore variant. -/
theorem c8_locator_mandatory_witness :
    FormField.validate argsNoLocator = none ∧
    (strategies fieldEmail).take 2 =
      [(fieldEmail.locator_type, fieldEmail.locator_value),
       (By.NAME, replaceChar (strToLower fieldEmail.field_name) spaceChar underscoreChar)] :=
  ⟨c8_locator_mandatory.1 argsNoLocator (Or.inl rfl), c8_locator_mandatory.2 fieldEmail⟩

/-- C9: every attempted field lands in exactly one of the filled and
failed lists, so their lengths sum to the reported total. -/
theorem c9_partition (env : Env) (mapping : List (String × String)) (fields : List FormField) :
    (fill_job_application_form env mapping fields).filled_fields.length +
      (fill_job_application_form env mapping fields).failed_fields.length =
      (fill_job_application_form env mapping fields).total_fields := by
  rw [fill_filled_def, fill_failed_def, fill_total_def, filledFields_length_add,
    List.length_map]

/-- C10: a field whose declared type lies outside the handled set is
appended to the filled list once its element is found and a profile value
matches, although no interaction branch runs on the element - for every
environment the dispatched interaction is the trivial success. -/
theorem c10_unhandled_type (env : Env) (mapping : List (String × String)) (field : FormField)
    (elem : Nat) (v : String)
    (htype : field.field_type ∉
      (["text", "email", "tel", "url", "password", "textarea", "select",
        "checkbox", "radio"] : List String))
    (hfind : find_element_with_multiple_strategies env.page field = some elem)
    (hscroll : env.scroll elem = Except.ok ())
    (hval : resolveProfileValue mapping (strToLower field.field_name) = some v) :
    (∀ env2 : Env, fillByType env2 elem field.field_type v = Except.ok ()) ∧
    processField env mapping field = FieldOutcome.filled field.field_name ∧
    (fill_job_application_form env mapping [field]).filled_fields = [field.field_name] := by
  simp only [List.mem_cons, List.not_mem_nil, or_false, not_or] at htype
  obtain ⟨h1, h2, h3, h4, h5, h6, h7, h8, h9⟩ := htype
  have hfb : ∀ env2 : Env, fillByType env2 elem field.field_type v = Except.ok () := by
    intro env2
    unfold fillByType
    rw [if_neg (by simp [h1, h2, h3, h4, h5]), if_neg h6, if_neg h7,
      if_neg (by simp [h8, h9])]
  have hp : processField env mapping field = FieldOutcome.filled field.field_name := by
    unfold processField
    rw [hfind]
    show afterScroll env mapping field elem (env.scroll elem) = _
    rw [hscroll]
    show afterValue env field elem (resolveProfileValue mapping (strToLower field.field_name)) = _
    rw [hval]
    show afterFill field (fillByType env elem field.field_type v) = _
    rw [hfb env]
    rfl
  refine ⟨hfb, hp, ?_⟩
  rw [fill_filled_def]
  simp [hp, filledFields, List.filterMap_cons]

/-- C10 witness: a field of type file, on an environment whose every
interaction raises, is nevertheless counted as filled. -/
theorem c10_unhandled_type_witness :
    processField (envRaise pageEmailBox) mapEmail fieldEmailFile =
      FieldOutcome.filled "Email" ∧
    (fill_job_application_form (envRaise pageEmailBox) mapEmail
        [fieldEmailFile]).filled_fields = ["Email"] := by
  have h := c10_unhandled_type (envRaise pageEmailBox) mapEmail fieldEmailFile 1
    "john.doe@email.com" (by decide) (by decide) (by decide) (by decide)
  exact ⟨h.2.1, h.2.2⟩

/-- C1 counterexample: a pass filling one of three fields reports
success_rate 3333 / 100, the two-decimal rounding, which differs from the
exact value 100 / 3 the claim asserts. -/
theorem c1_counterexample :
    (fill_job_application_form (envOk pageEmailBox) mapEmail
        [fieldEmail, fieldAaa, fieldBbb]).total_fields = 3 ∧
    (fill_job_application_form (envOk pageEmailBox) mapEmail
        [fieldEmail, fieldAaa, fieldBbb]).filled_fields.length = 1 ∧
    (fill_job_application_form (envOk pageEmailBox) mapEmail
        [fieldEmail, fieldAaa, fieldBbb]).success_rate = 3333 / 100 ∧
    (fill_job_application_form (envOk pageEmailBox) mapEmail
        [fieldEmail, fieldAaa, fieldBbb]).success_rate ≠
      100 * ((fill_job_application_form (envOk pageEmailBox) mapEmail
          [fieldEmail, fieldAaa, fieldBbb]).filled_fields.length : ℚ) /
        ((fill_job_application_form (envOk pageEmailBox) mapEmail
          [fieldEmail, fieldAaa, fieldBbb]).total_fields : ℚ) := by
  have hfilled : filledFields ([fieldEmail, fieldAaa, fieldBbb].map
      (processField (envOk pageEmailBox) mapEmail)) = ["Email"] := by decide
  have hrate : (fill_job_application_form (envOk pageEmailBox) mapEmail
      [fieldEmail, fieldAaa, fieldBbb]).success_rate = 3333 / 100 := by
    rw [fill_rate_def, hfilled]
    norm_num [round2, roundHalfEvenInt]
  refine ⟨rfl, ?_, hrate, ?_⟩
  · rw [fill_filled_def, hfilled]
    rfl
  · rw [hrate, fill_filled_def, fill_total_def, hfilled]
    norm_num

/-- C1 (amended): the success_rate reported by a completed fill pass is
100 times filled over total rounded to two decimal places when the total
is positive, and 0 when the total is 0. -/
theorem c1_success_rate (env : Env) (mapping : List (String × String))
    (fields : List FormField) :
    (0 < (fill_job_application_form env mapping fields).total_fields →
      (fill_job_application_form env mapping fields).success_rate =
        round2 (((fill_job_application_form env mapping fields).filled_fields.length : ℚ) /
          ((fill_job_application_form env mapping fields).total_fields : ℚ) * 100)) ∧
    ((fill_job_application_form env mapping fields).total_fields = 0 →
      (fill_job_application_form env mapping fields).success_rate = 0) := by
  constructor
  · intro h
    rw [fill_total_def] at h
    rw [fill_rate_def, fill_filled_def, fill_total_def, if_pos h]
  · intro h
    rw [fill_total_def] at h
    rw [fill_rate_def, if_neg (by omega), round2_zero]

/-- C1 witness: the amended success-rate law evaluated on a concrete
three-field pass. -/
theorem c1_success_rate_witness :
    0 < (fill_job_application_form (envOk pageEmailBox) mapEmail
        [fieldEmail, fieldAaa, fieldBbb]).total_fields ∧
    (fill_job_application_form (envOk pageEmailBox) mapEmail
        [fieldEmail, fieldAaa, fieldBbb]).success_rate =
      round2 (((fill_job_application_form (envOk pageEmailBox) mapEmail
          [fieldEmail, fieldAaa, fieldBbb]).filled_fields.length : ℚ) /
        ((fill_job_application_form (envOk pageEmailBox) mapEmail
          [fieldEmail, fieldAaa, fieldBbb]).total_fields : ℚ) * 100) :=
  ⟨by decide, (c1_success_rate (envOk pageEmailBox) mapEmail
    [fieldEmail, fieldAaa, fieldBbb]).1 (by decide)⟩

/-- C2 counterexample: a completed pass over an empty field list fills
zero fields yet reports the aggregate status success, not error. -/
theorem c2_counterexample :
    (fill_job_application_form (envOk pageNone) mapEmail []).filled_fields.length = 0 ∧
    (fill_job_application_form (envOk pageNone) mapEmail []).filling_status = "success" :=
  ⟨rfl, rfl⟩

/-- C2 (amended): the aggregate status is a pure function of the filled
and total counts, testing filled = total first - so a pass over zero
fields reports success - then a positive filled count as partial and zero
as error; a single-field pass whose only field is not found reports
error. -/
theorem c2_status (env : Env) (mapping : List (String × String)) (fields : List FormField) :
    ((fill_job_application_form env mapping fields).filling_status =
      if (fill_job_application_form env mapping fields).filled_fields.length =
          (fill_job_application_form env mapping fields).total_fields then "success"
      else if 0 < (fill_job_application_form env mapping fields).filled_fields.length
      then "partial"
      else "error") ∧
    (∀ field : FormField, find_element_with_multiple_strategies env.page field = none →
      (fill_job_application_form env mapping [field]).filling_status = "error") := by
  constructor
  · rfl
  · intro field h
    have hp := processField_not_found env mapping field h
    rw [fill_status_def]
    simp [hp, filledFields, List.filterMap_cons]

/-- C2 witness: the single-field not-found scenario reports the aggregate
status error. -/
theorem c2_status_witness :
    find_element_with_multiple_strategies (envOk pageNone).page fieldFavColor = none ∧
    (fill_job_application_form (envOk pageNone) mapEmail [fieldFavColor]).filling_status =
      "error" :=
  ⟨by decide, (c2_status (envOk pageNone) mapEmail [fieldFavColor]).2 fieldFavColor (by decide)⟩

/-- C3 counterexample: the field named Email Name contains email, the page
holds an input of type email reachable only by the type=email probe and no
other candidate matches, yet resolution reports not-found - the name
branch of the if/elif chain suppresses the email probes. -/
theorem c3_counterexample :
    strContains (strToLower fieldEmailName.field_name) "email" = true ∧
    pageTypeEmailOnly By.XPATH "//input[@type=\x27email\x27]" = Except.ok 7 ∧
    find_element_with_multiple_strategies pageTypeEmailOnly fieldEmailName = none :=
  ⟨by decide, by decide, by decide⟩

/-- C3 (amended): for a field whose lowercased name contains email but not
name, once the declared locator and the four by-name/by-id candidates all
fail, resolution attempts the type=email XPath probe - it is among the
candidates - and succeeds on it before reporting not-found. -/
theorem c3_email_probe (page : Page) (field : FormField) (e : Nat)
    (hemail : strContains (strToLower field.field_name) "email" = true)
    (hname : strContains (strToLower field.field_name) "name" = false)
    (hfail : ∀ s ∈ strategiesBase field,
      exceptIsOk (page (normalizeLocatorType s.1) s.2) = false)
    (hok : page By.XPATH "//input[@type=\x27email\x27]" = Except.ok e) :
    (By.XPATH, "//input[@type=\x27email\x27]") ∈ strategies field ∧
    find_element_with_multiple_strategies page field = some e := by
  have hs : strategies field = strategiesBase field ++
      [(By.XPATH, "//input[@type=\x27email\x27]"),
       (By.XPATH, "//input[contains(@placeholder, \x27email\x27)]")] := by
    unfold strategies
    rw [if_neg (by simp [hname]), if_pos hemail]
  constructor
  · rw [hs]
    simp
  · unfold find_element_with_multiple_strategies
    rw [hs, tryStrategies_append_of_fail page _ _ hfail]
    refine tryStrategies_cons_ok page By.XPATH _ _ e ?_
    rw [show normalizeLocatorType By.XPATH = By.XPATH from by decide]
    exact hok

/-- C3 witness: the Email Address scenario resolves through the type=email
probe on a page holding only an input of type email. -/
theorem c3_email_probe_witness :
    strContains (strToLower fieldEmailAddress.field_name) "email" = true ∧
    strContains (strToLower fieldEmailAddress.field_name) "name" = false ∧
    find_element_with_multiple_strategies pageTypeEmailOnly fieldEmailAddress = some 7 :=
  ⟨by decide, by decide,
    (c3_email_probe pageTypeEmailOnly fieldEmailAddress 7 (by decide) (by decide)
      (by decide) (by decide)).2⟩

/-- C6 counterexample: one completed raw pass records three failure kinds
beyond the claimed two, on an environment whose type-specific interactions
never raise - a missing-profile-value entry for a found element, a
pydantic construction failure recorded with the ValidationError message,
and a scroll-script fault recorded with its message. -/
theorem c6_counterexample :
    (fill_job_application_form_raw envScrollFault vmsgPydantic mapNoColor
        [rawFav, rawBroken, rawStreet]).failed_fields =
      [("Favorite Color", "No matching profile data found"),
       ("Broken", "1 validation error for FormField"),
       ("Street", "scroll raised")] ∧
    find_element_with_multiple_strategies envScrollFault.page fieldFavColor = some 1 ∧
    FormField.validate rawBroken.toArgs = none ∧
    find_element_with_multiple_strategies envScrollFault.page fieldStreet = some 2 :=
  ⟨by decide, by decide, by decide, by decide⟩

/-- C6 (amended): every failure entry of a completed pass names a raw
field of the pass and has one of exactly four kinds: a pydantic
construction failure recorded with the ValidationError message, the fixed
lookup-failure reason, the fixed missing-profile-data reason, or the
message of an exception raised on the found element by the later steps of
the try (the scroll script or the type-specific interaction). -/
theorem c6_failure_kinds (env : Env) (vmsg : FormFieldArgs → String)
    (mapping : List (String × String)) (fields : List RawField) (n err : String)
    (h : (n, err) ∈ (fill_job_application_form_raw env vmsg mapping fields).failed_fields) :
    ∃ d, d ∈ fields ∧
      ((FormField.validate d.toArgs = none ∧ n = d.field_name ∧ err = vmsg d.toArgs) ∨
        ∃ field, FormField.validate d.toArgs = some field ∧ n = field.field_name ∧
          ((find_element_with_multiple_strategies env.page field = none ∧
              err = "Element not found with any strategy") ∨
            err = "No matching profile data found" ∨
            (∃ elem, find_element_with_multiple_strategies env.page field = some elem ∧
              (env.scroll elem = Except.error err ∨
                ∃ v, fillByType env elem field.field_type v = Except.error err)))) := by
  rw [fill_raw_failed_mem] at h
  obtain ⟨d, hd, hp⟩ := h
  refine ⟨d, hd, ?_⟩
  unfold processRawField at hp
  cases hv : FormField.validate d.toArgs with
  | none =>
      rw [hv] at hp
      simp only at hp
      injection hp with h1 h2
      exact Or.inl ⟨rfl, h1.symm, h2.symm⟩
  | some field =>
      rw [hv] at hp
      simp only at hp
      obtain ⟨h1, h2⟩ := processField_failed_cases env mapping field n err hp
      exact Or.inr ⟨field, rfl, h1, h2⟩

/-- C6 witness: the four-kind classification applied to the concrete
construction failure of a single-field raw pass. -/
theorem c6_failure_kinds_witness :
    ("Broken", "1 validation error for FormField") ∈
      (fill_job_application_form_raw envScrollFault vmsgPydantic mapNoColor
        [rawBroken]).failed_fields ∧
    "Broken" = rawBroken.field_name := by
  have hm : ("Broken", "1 validation error for FormField") ∈
      (fill_job_application_form_raw envScrollFault vmsgPydantic mapNoColor
        [rawBroken]).failed_fields := by
    rw [fill_raw_failed_def]
    decide
  obtain ⟨d, hd, hk⟩ := c6_failure_kinds envScrollFault vmsgPydantic mapNoColor
    [rawBroken] "Broken" "1 validation error for FormField" hm
  have hde : d = rawBroken := by simpa using hd
  subst hde
  rcases hk with ⟨_, h1, _⟩ | ⟨field, hv, _⟩
  · exact ⟨hm, h1⟩
  · have hnone : FormField.validate rawBroken.toArgs = none := by decide
    rw [hnone] at hv
    simp at hv

/-- C7: a raised interaction fault is caught at field level, the field is
recorded in the failure list with the raised message, the pass still
processes every other field and completes with the full total - nothing is
retried and nothing aborts the pass. -/
theorem c7_fill_fault (env : Env) (mapping : List (String × String)) (field : FormField)
    (elem : Nat) (v msg : String) (pre post : List FormField)
    (hfind : find_element_with_multiple_strategies env.page field = some elem)
    (hscroll : env.scroll elem = Except.ok ())
    (hval : resolveProfileValue mapping (strToLower field.field_name) = some v)
    (hfill : fillByType env elem field.field_type v = Except.error msg) :
    processField env mapping field = FieldOutcome.failed field.field_name msg ∧
    (field.field_name, msg) ∈
      (fill_job_application_form env mapping (pre ++ field :: post)).failed_fields ∧
    (fill_job_application_form env mapping (pre ++ field :: post)).filled_fields =
      filledFields (pre.map (processField env mapping)) ++
        filledFields (post.map (processField env mapping)) ∧
    (fill_job_application_form env mapping (pre ++ field :: post)).total_fields =
      pre.length + post.length + 1 := by
  have hp : processField env mapping field = FieldOutcome.failed field.field_name msg := by
    unfold processField
    rw [hfind]
    show afterScroll env mapping field elem (env.scroll elem) = _
    rw [hscroll]
    show afterValue env field elem (resolveProfileValue mapping (strToLower field.field_name)) = _
    rw [hval]
    show afterFill field (fillByType env elem field.field_type v) = _
    rw [hfill]
    rfl
  refine ⟨hp, ?_, ?_, ?_⟩
  · rw [fill_failed_mem]
    exact ⟨field, by simp, hp⟩
  · rw [fill_filled_def, List.map_append, List.map_cons, hp]
    simp [filledFields, List.filterMap_append, List.filterMap_cons]
  · rw [fill_total_def, List.length_append, List.length_cons]
    omega

/-- C7 witness: the caught-fault law on a concrete environment whose
typing interaction raises. -/
theorem c7_fill_fault_witness :
    processField (envRaise pageEmailBox) mapEmail fieldEmail =
      FieldOutcome.failed "Email" "interaction raised" ∧
    ("Email", "interaction raised") ∈
      (fill_job_application_form (envRaise pageEmailBox) mapEmail
        [fieldEmail]).failed_fields ∧
    (fill_job_application_form (envRaise pageEmailBox) mapEmail [fieldEmail]).total_fields =
      1 := by
  have h := c7_fill_fault (envRaise pageEmailBox) mapEmail fieldEmail 1
    "john.doe@email.com" "interaction raised" [] [] (by decide) (by decide)
    (by decide) (by decide)
  exact ⟨h.1, h.2.1, h.2.2.2⟩

end ToolCalling3
